import Mathlib

/-!
Shallow embedding of `src/backend/src/api.py` from the Coffee Shop Full Stack
backend: a Flask REST API over a single `drinks` table.  Pure request-handling
logic (payload validation, title-uniqueness check, row lookup, response
envelopes) is translated into executable Lean functions over an explicit
data-store state.  The SQLAlchemy layer is modelled as a list of rows; the
pieces living outside `api.py` (the `Drink.short`/`Drink.long` serializers,
`db_drop_and_create_all`, the `AuthError` class) are modelled from the
specification and marked as such.
-/

namespace CoffeeShop

/-- JSON values, used for response bodies.  Objects keep the key order in
which the source builds them. -/
inductive J where
  | null : J
  | bool : Bool → J
  | num : Int → J
  | str : String → J
  | arr : List J → J
  | obj : List (String × J) → J

/-- Whether a JSON object body carries a given top-level key. -/
def objHasKey (j : J) (k : String) : Bool :=
  match j with
  | J.obj fields => fields.any (fun f => f.1 == k)
  | _ => false

/-- One entry of a request payload `recipe` list, a JSON dict in which
`name`, `color` and `parts` may each be absent (`.get` returns `None`). -/
structure RecipeEntry where
  name : Option String
  color : Option String
  parts : Option Int
deriving Repr, DecidableEq

/-- The JSON value found under the `recipe` key of a payload: either a list of
entry dicts, or some non-list value of which only Python truthiness matters. -/
inductive RecipeField where
  | list : List RecipeEntry → RecipeField
  | nonList : Bool → RecipeField
deriving Repr, DecidableEq

/-- A request body for POST /drinks and PATCH /drinks, as read by
`request.get_json()`: `data.get` on a missing key yields `None`. -/
structure DrinkPayload where
  title : Option String
  recipe : Option RecipeField
deriving Repr, DecidableEq

/-- Python truthiness of `data.get(key)` for a string-valued key:
`None` and the empty string are falsy. -/
def strTruthy : Option String → Bool
  | none => false
  | some s => s ≠ ""

/-- Python truthiness of `data.get(key)` for a number-valued key:
`None` and `0` are falsy. -/
def intTruthy : Option Int → Bool
  | none => false
  | some n => n ≠ 0

/-- Python truthiness of the `recipe` value: an empty list is falsy. -/
def recipeTruthy : Option RecipeField → Bool
  | none => false
  | some (RecipeField.list es) => !es.isEmpty
  | some (RecipeField.nonList t) => t

/-- Whether the `recipe` value is a Python `list` (`type(...) == list`). -/
def recipeIsList : Option RecipeField → Bool
  | some (RecipeField.list _) => true
  | _ => false

/-- The entries of a list-valued recipe. -/
def recipeEntries : Option RecipeField → List RecipeEntry
  | some (RecipeField.list es) => es
  | _ => []

/-- The per-entry loop of `check_drink_attribute` (api.py lines 25-27):
abort 422 at the first entry whose `name`, `parts` or `color` is falsy. -/
def checkRecipeEntries : List RecipeEntry → Except Nat Unit
  | [] => Except.ok ()
  | r :: rest =>
      if !strTruthy r.name || !intTruthy r.parts || !strTruthy r.color then
        Except.error 422
      else
        checkRecipeEntries rest

/-- `check_drink_attribute` (api.py lines 18-27): abort 422 when `title` is
falsy, `recipe` is falsy, or `recipe` is not a list; then run the entry loop.
`Except.error c` models `abort(c)`. -/
def check_drink_attribute (data : DrinkPayload) : Except Nat Unit :=
  if !strTruthy data.title || !recipeTruthy data.recipe
      || !recipeIsList data.recipe then
    Except.error 422
  else
    checkRecipeEntries (recipeEntries data.recipe)

/-- A persisted row of the `drinks` table.  `recipe` holds the entries whose
`json.dumps` serialization the row stores. -/
structure Drink where
  id : Nat
  title : String
  recipe : List RecipeEntry
deriving Repr, DecidableEq

/-- The data store: the rows of the `drinks` table plus the next
autoincrement primary key. -/
structure DB where
  drinks : List Drink
  nextId : Nat
deriving Repr, DecidableEq

/-- Modelled from the spec: `db_drop_and_create_all` (database/models.py, not
part of the sources here); its in-source note says it drops all records and
starts the database from scratch, so it maps any store to the empty one. -/
def db_drop_and_create_all (_db : DB) : DB :=
  { drinks := [], nextId := 1 }

/-- The store after api.py line 49 runs at process start, before any route is
served. -/
def startupDB (prev : DB) : DB :=
  db_drop_and_create_all prev

/-- The empty store the application starts from. -/
def initDB : DB :=
  startupDB { drinks := [], nextId := 1 }

/-- JSON form of an optional string field. -/
def optStrJ : Option String → J
  | none => J.null
  | some s => J.str s

/-- JSON form of an optional numeric field. -/
def optIntJ : Option Int → J
  | none => J.null
  | some n => J.num n

/-- Modelled from the spec: the short serialization of a recipe entry
exposes only `color` and `parts` (spec section 3; `Drink.short` lives in
database/models.py, not part of the sources here). -/
def shortEntryJ (r : RecipeEntry) : J :=
  J.obj [("color", optStrJ r.color), ("parts", optIntJ r.parts)]

/-- Modelled from the spec: the long serialization of a recipe entry is the
full entry including `name` (spec section 3; `Drink.long` lives in
database/models.py, not part of the sources here). -/
def longEntryJ (r : RecipeEntry) : J :=
  J.obj [("name", optStrJ r.name), ("color", optStrJ r.color),
         ("parts", optIntJ r.parts)]

/-- Modelled from the spec: `Drink.short`, the short representation of a
row. -/
def Drink.shortJ (d : Drink) : J :=
  J.obj [("id", J.num d.id), ("title", J.str d.title),
         ("recipe", J.arr (d.recipe.map shortEntryJ))]

/-- Modelled from the spec: `Drink.long`, the long (name-including)
representation of a row. -/
def Drink.longJ (d : Drink) : J :=
  J.obj [("id", J.num d.id), ("title", J.str d.title),
         ("recipe", J.arr (d.recipe.map longEntryJ))]

/-- The SQLAlchemy method `Query.one_or_none`, applied on the rows matching a filter: `None`
for no match, the row for exactly one, and `MultipleResultsFound` — an
uncaught exception surfacing as a 500 server error — for more than one. -/
def one_or_none (rows : List Drink) : Except Nat (Option Drink) :=
  match rows with
  | [] => Except.ok none
  | [d] => Except.ok (some d)
  | _ :: _ :: _ => Except.error 500

/-- The body every registered error handler returns (api.py lines 203-257). -/
def errBody (code : Nat) (msg : String) : J :=
  J.obj [("success", J.bool false), ("error", J.num code),
         ("message", J.str msg)]

/-- The message each registered error handler uses.  Handlers only ever
abort with 400, 404, 422 or 500, all of which are registered. -/
def errMessage : Nat → String
  | 400 => "Bad Request"
  | 401 => "Unauthorized"
  | 403 => "Forbidden"
  | 404 => "Resource not found"
  | 405 => "Method not allowed"
  | 422 => "Unprocessable"
  | _ => "Unknown server error"

/-- The response produced when `abort(code)` reaches the error-handling
layer: status plus the uniform error envelope. -/
def errorResponse (code : Nat) : Nat × J :=
  (code, errBody code (errMessage code))

/-- `get_drinks` (api.py lines 53-69): public list of all drinks in short
form.  The source writes the envelope key as the literal "sucess". -/
def get_drinks (db : DB) : Nat × J :=
  (200, J.obj [("sucess", J.bool true),
               ("drinks", J.arr (db.drinks.map Drink.shortJ))])

/-- `get_drinks_detail` (api.py lines 73-90): list of all drinks in long
form.  The source writes the envelope key as the literal "sucess". -/
def get_drinks_detail (db : DB) : Nat × J :=
  (200, J.obj [("sucess", J.bool true),
               ("drinks", J.arr (db.drinks.map Drink.longJ))])

/-- SQL `lower()` as applied by `func.lower`: ASCII lowercasing, matching
the SQLite LOWER on the titles this API stores. -/
def sqlLower (s : String) : String :=
  String.mk (s.data.map Char.toLower)

/-- The rows matching the POST duplicate-title filter
`func.lower` applied to `Drink.title` and to the payload title. -/
def titleMatches (db : DB) (t : String) : List Drink :=
  db.drinks.filter (fun d => sqlLower d.title == sqlLower t)

/-- `post_drink` (api.py lines 92-130): validate attributes, reject a
case-insensitive duplicate title with 422, then insert the new row.  The
duplicate-title query sits outside the `try`, so a `MultipleResultsFound`
from `one_or_none` propagates as a server error. -/
def post_drink (db : DB) (data : DrinkPayload) : (Nat × J) × DB :=
  match check_drink_attribute data with
  | Except.error c => (errorResponse c, db)
  | Except.ok _ =>
    match one_or_none (titleMatches db (data.title.getD "")) with
    | Except.error c => (errorResponse c, db)
    | Except.ok (some _) => (errorResponse 422, db)
    | Except.ok none =>
        let new_drink : Drink :=
          { id := db.nextId, title := data.title.getD "",
            recipe := recipeEntries data.recipe }
        ((200, J.obj [("success", J.bool true),
                      ("drinks", J.arr [new_drink.shortJ])]),
         { drinks := db.drinks ++ [new_drink], nextId := db.nextId + 1 })

/-- The rows matching the PATCH/DELETE primary-key filter
`Drink.id == drink_id`. -/
def idMatches (db : DB) (i : Nat) : List Drink :=
  db.drinks.filter (fun d => d.id == i)

/-- `patch_drink` (api.py lines 132-167): resolve the row by primary key
(404 when absent), then validate attributes, update title and recipe, and
return the full `get_drinks()` response for the updated store. -/
def patch_drink (db : DB) (drink_id : Nat) (data : DrinkPayload) :
    (Nat × J) × DB :=
  match one_or_none (idMatches db drink_id) with
  | Except.error c => (errorResponse c, db)
  | Except.ok none => (errorResponse 404, db)
  | Except.ok (some drink) =>
    match check_drink_attribute data with
    | Except.error c => (errorResponse c, db)
    | Except.ok _ =>
        let updated : Drink :=
          { drink with title := data.title.getD "",
                       recipe := recipeEntries data.recipe }
        let db2 : DB :=
          { drinks := db.drinks.map
              (fun d => if d.id == drink_id then updated else d),
            nextId := db.nextId }
        (get_drinks db2, db2)

/-- `delete_drink` (api.py lines 170-189): `Drink.query.get_or_404` raises
`NotFound` for a missing id, but the surrounding `except Exception` catches
it (the werkzeug `NotFound` is an `Exception`) and calls `abort(500)`, so the
missing-id path answers 500, never 404. -/
def delete_drink (db : DB) (drink_id : Nat) : (Nat × J) × DB :=
  match db.drinks.find? (fun d => d.id == drink_id) with
  | none => (errorResponse 500, db)
  | some _ =>
      ((200, J.obj [("success", J.bool true), ("delete", J.num drink_id)]),
       { drinks := db.drinks.filter (fun d => d.id != drink_id),
         nextId := db.nextId })

/-- Modelled from the spec: an `AuthError` (auth/auth.py, not part of the
sources here) carries an HTTP status code plus a provider-supplied error
code and description (spec sections 4.1-4.3 and 7). -/
structure AuthError where
  status_code : Nat
  code : String
  description : String

/-- `auth_error` (api.py lines 263-270): the AuthError handler returns the
uniform envelope plus an extra `error_code` key. -/
def auth_error (e : AuthError) : Nat × J :=
  (e.status_code,
   J.obj [("success", J.bool false), ("error", J.num e.status_code),
          ("error_code", J.str e.code), ("message", J.str e.description)])

/-- A mutating request: POST /drinks or PATCH /drinks/drink_id. -/
inductive Op where
  | post : DrinkPayload → Op
  | patch : Nat → DrinkPayload → Op
deriving Repr, DecidableEq

/-- Dispatch one mutating request against the store. -/
def applyOp (db : DB) (op : Op) : (Nat × J) × DB :=
  match op with
  | Op.post data => post_drink db data
  | Op.patch i data => patch_drink db i data

/-- The store after a sequence of mutating requests. -/
def runOps (db : DB) : List Op → DB
  | [] => db
  | op :: rest => runOps (applyOp db op).2 rest

/-- Whether every request in the sequence answers 200. -/
def opsSucceed (db : DB) : List Op → Bool
  | [] => true
  | op :: rest =>
      (applyOp db op).1.1 == 200 && opsSucceed (applyOp db op).2 rest

/-- Whether an operation is a POST. -/
def isPostOp : Op → Bool
  | Op.post _ => true
  | Op.patch _ _ => false

/-- The uniqueness invariant of the specification: no two rows have case-insensitively
equal titles. -/
def titlesUnique (db : DB) : Prop :=
  (db.drinks.map (fun d => sqlLower d.title)).Nodup

instance (db : DB) : Decidable (titlesUnique db) := by
  unfold titlesUnique
  infer_instance

/-- Primary keys are unique across rows — the primary-key
constraint of the table, which every reachable store satisfies. -/
def idsUnique (db : DB) : Prop :=
  (db.drinks.map Drink.id).Nodup

instance (db : DB) : Decidable (idsUnique db) := by
  unfold idsUnique
  infer_instance

/-- A recipe entry lacking one of the three required fields. -/
def entryLacksField (r : RecipeEntry) : Prop :=
  r.name = none ∨ r.color = none ∨ r.parts = none

/-- The payload defects enumerated by claim C5: missing title, missing
recipe, non-list recipe, or a recipe entry lacking name, color or parts. -/
def invalidPayload (data : DrinkPayload) : Prop :=
  data.title = none ∨ data.recipe = none ∨
  (∃ t, data.recipe = some (RecipeField.nonList t)) ∨
  (∃ es, data.recipe = some (RecipeField.list es) ∧
    ∃ r ∈ es, entryLacksField r)

/-- A payload whose recipe list holds an entry with `parts` equal to 0. -/
def hasZeroPartsEntry (data : DrinkPayload) : Prop :=
  ∃ es, data.recipe = some (RecipeField.list es) ∧
    ∃ r ∈ es, r.parts = some 0

/-- A well-formed recipe entry used by the concrete scenarios. -/
def waterEntry : RecipeEntry :=
  { name := some "water", color := some "blue", parts := some 1 }

/-- A second well-formed recipe entry. -/
def milkEntry : RecipeEntry :=
  { name := some "milk", color := some "white", parts := some 2 }

/-- A valid POST payload titled "Water". -/
def waterPayload : DrinkPayload :=
  { title := some "Water", recipe := some (RecipeField.list [waterEntry]) }

/-- A valid POST payload titled "Tea". -/
def teaPayload : DrinkPayload :=
  { title := some "Tea", recipe := some (RecipeField.list [waterEntry]) }

/-- A valid payload titled "water", colliding case-insensitively with
"Water". -/
def lowerWaterPayload : DrinkPayload :=
  { title := some "water", recipe := some (RecipeField.list [waterEntry]) }

/-- A valid payload titled "WATER". -/
def capsWaterPayload : DrinkPayload :=
  { title := some "WATER", recipe := some (RecipeField.list [waterEntry]) }

/-- A payload with no `recipe` key at all. -/
def noRecipePayload : DrinkPayload :=
  { title := some "Water2", recipe := none }

/-- A payload whose single recipe entry has `parts` equal to 0. -/
def zeroPartsPayload : DrinkPayload :=
  { title := some "Cocoa",
    recipe := some (RecipeField.list
      [{ name := some "cocoa", color := some "brown", parts := some 0 }]) }

/-- A valid PATCH payload retitling a drink to "Water2". -/
def patchPayload : DrinkPayload :=
  { title := some "Water2", recipe := some (RecipeField.list [milkEntry]) }

/-- POST "Water", POST "Tea", then PATCH drink 2 to the title "water": each
step succeeds, and the final store holds the titles "Water" and "water". -/
def dupTrace : List Op :=
  [Op.post waterPayload, Op.post teaPayload, Op.patch 2 lowerWaterPayload]

/-- A store holding the single drink "Water" with primary key 1. -/
def drink1 : Drink :=
  { id := 1, title := "Water", recipe := [waterEntry] }

/-- A one-row store, as reached by a single successful POST. -/
def db1 : DB :=
  { drinks := [drink1], nextId := 2 }

/-- The HTTP status codes with a registered error handler
(api.py lines 203-257). -/
def registeredErrorCodes : List Nat :=
  [400, 401, 403, 404, 405, 422, 500]

/-! ### Helper lemmas about the validation and lookup functions -/

theorem checkRecipeEntries_error_of_mem {es : List RecipeEntry}
    {r : RecipeEntry} (hr : r ∈ es)
    (hbad : strTruthy r.name = false ∨ intTruthy r.parts = false ∨
      strTruthy r.color = false) :
    checkRecipeEntries es = Except.error 422 := by
  induction es with
  | nil => exact absurd hr (List.not_mem_nil r)
  | cons a rest ih =>
    rcases List.mem_cons.mp hr with h | h
    · subst h
      unfold checkRecipeEntries
      rcases hbad with hb | hb | hb <;> simp [hb]
    · unfold checkRecipeEntries
      split
      · rfl
      · exact ih h

theorem checkRecipeEntries_error_code {es : List RecipeEntry} {c : Nat}
    (h : checkRecipeEntries es = Except.error c) : c = 422 := by
  induction es with
  | nil => simp [checkRecipeEntries] at h
  | cons a rest ih =>
    unfold checkRecipeEntries at h
    split at h
    · injection h with h2
      exact h2.symm
    · exact ih h

theorem check_drink_attribute_error_code {data : DrinkPayload} {c : Nat}
    (h : check_drink_attribute data = Except.error c) : c = 422 := by
  unfold check_drink_attribute at h
  split at h
  · injection h with h2
    exact h2.symm
  · exact checkRecipeEntries_error_code h

theorem recipeIsList_nonList (t : Bool) :
    recipeIsList (some (RecipeField.nonList t)) = false := rfl

theorem check_drink_attribute_of_invalid {data : DrinkPayload}
    (h : invalidPayload data) :
    check_drink_attribute data = Except.error 422 := by
  rcases h with h | h | ⟨t, h⟩ | ⟨es, hrec, r, hr, hlack⟩
  · simp [check_drink_attribute, h, strTruthy]
  · simp [check_drink_attribute, h, recipeTruthy]
  · simp [check_drink_attribute, h, recipeIsList_nonList]
  · have hbad : strTruthy r.name = false ∨ intTruthy r.parts = false ∨
        strTruthy r.color = false := by
      rcases hlack with hl | hl | hl
      · exact Or.inl (by rw [hl]; rfl)
      · exact Or.inr (Or.inr (by rw [hl]; rfl))
      · exact Or.inr (Or.inl (by rw [hl]; rfl))
    unfold check_drink_attribute
    split
    · rfl
    · simpa [recipeEntries, hrec] using checkRecipeEntries_error_of_mem hr hbad

theorem check_drink_attribute_of_zeroParts {data : DrinkPayload}
    (h : hasZeroPartsEntry data) :
    check_drink_attribute data = Except.error 422 := by
  rcases h with ⟨es, hrec, r, hr, hp⟩
  have hbad : strTruthy r.name = false ∨ intTruthy r.parts = false ∨
      strTruthy r.color = false :=
    Or.inr (Or.inl (by rw [hp]; rfl))
  unfold check_drink_attribute
  split
  · rfl
  · simpa [recipeEntries, hrec] using checkRecipeEntries_error_of_mem hr hbad

theorem one_or_none_eq_ok_none {l : List Drink} :
    one_or_none l = Except.ok none ↔ l = [] := by
  cases l with
  | nil => simp [one_or_none]
  | cons a t => cases t <;> simp [one_or_none]

theorem filter_id_eq_singleton {l : List Drink} {d : Drink}
    (hu : (l.map Drink.id).Nodup) (hd : d ∈ l) :
    l.filter (fun x => x.id == d.id) = [d] := by
  induction l with
  | nil => exact absurd hd (List.not_mem_nil d)
  | cons a rest ih =>
    rw [List.map_cons, List.nodup_cons] at hu
    rcases List.mem_cons.mp hd with h | h
    · subst h
      have hnil : rest.filter (fun x => x.id == d.id) = [] := by
        refine List.filter_eq_nil_iff.mpr ?_
        intro x hx
        simp only [beq_eq_false_iff_ne, ne_eq, Bool.not_eq_true]
        intro heq
        exact hu.1 (heq ▸ List.mem_map_of_mem Drink.id hx)
      simp [List.filter_cons, hnil]
    · have hne : (a.id == d.id) = false := by
        refine beq_eq_false_iff_ne.mpr ?_
        intro heq
        exact hu.1 (heq ▸ List.mem_map_of_mem Drink.id h)
      simp [List.filter_cons, hne, ih hu.2 h]

theorem idMatches_eq_singleton {db : DB} {d : Drink} {i : Nat}
    (hu : idsUnique db) (hd : d ∈ db.drinks) (hi : d.id = i) :
    idMatches db i = [d] := by
  subst hi
  have hu' : (db.drinks.map Drink.id).Nodup := hu
  unfold idMatches
  exact filter_id_eq_singleton hu' hd

theorem idMatches_eq_nil {db : DB} {i : Nat}
    (h : ∀ d ∈ db.drinks, d.id ≠ i) : idMatches db i = [] := by
  unfold idMatches
  refine List.filter_eq_nil_iff.mpr ?_
  intro a ha
  simpa using h a ha

theorem titleMatches_nil_notmem {db : DB} {t : String}
    (h : titleMatches db t = []) :
    sqlLower t ∉ db.drinks.map (fun d => sqlLower d.title) := by
  unfold titleMatches at h
  intro hmem
  rcases List.mem_map.mp hmem with ⟨d, hd, heq⟩
  have hne := List.filter_eq_nil_iff.mp h d hd
  rw [heq] at hne
  simp at hne

theorem post_drink_preserves_titlesUnique (db : DB) (data : DrinkPayload)
    (h : titlesUnique db) : titlesUnique (post_drink db data).2 := by
  unfold post_drink
  cases hc : check_drink_attribute data with
  | error c => exact h
  | ok u =>
    cases ho : one_or_none (titleMatches db (data.title.getD "")) with
    | error c => exact h
    | ok o =>
      cases o with
      | some d => exact h
      | none =>
        have hnil : titleMatches db (data.title.getD "") = [] :=
          one_or_none_eq_ok_none.mp ho
        have hnotmem := titleMatches_nil_notmem hnil
        have h' : (db.drinks.map (fun d => sqlLower d.title)).Nodup := h
        show ((db.drinks ++
            [({ id := db.nextId, title := data.title.getD "",
                recipe := recipeEntries data.recipe } : Drink)]).map
          (fun d : Drink => sqlLower d.title)).Nodup
        rw [List.map_append, List.nodup_append]
        refine ⟨h', List.nodup_singleton _, ?_⟩
        intro x hx
        simp only [List.map_cons, List.map_nil, List.mem_singleton]
        intro hx2
        subst hx2
        exact hnotmem hx

theorem runOps_posts_titlesUnique (ops : List Op) :
    ∀ (db : DB), (∀ op ∈ ops, isPostOp op = true) → titlesUnique db →
    titlesUnique (runOps db ops) := by
  induction ops with
  | nil =>
    intro db _ h
    exact h
  | cons op rest ih =>
    intro db hall h
    have hop := hall op (List.mem_cons_self op rest)
    cases op with
    | post data =>
        have h2 := post_drink_preserves_titlesUnique db data h
        exact ih _ (fun o ho => hall o (List.mem_cons_of_mem _ ho)) h2
    | patch i data => simp [isPostOp] at hop

/-! ### Claim theorems -/

/-- Claim C1 (code bug): DELETE on a missing primary key answers 500, not
the 404 the claim and the handler docstring promise, because the NotFound
raised by get_or_404 is swallowed by the blanket except clause; the store
is left unchanged.  Evaluated at a one-row store and the absent id 2. -/
theorem C1_delete_missing_id_responds_500 :
    (∀ d ∈ db1.drinks, d.id ≠ 2) ∧
    delete_drink db1 2 = (errorResponse 500, db1) ∧
    (delete_drink db1 2).1.1 ≠ 404 :=
  ⟨by decide, rfl, by decide⟩

/-- Claim C2 (counterexample): a sequence of successful mutating requests —
POST "Water", POST "Tea", PATCH drink 2 to the title "water" — ends in a
store whose titles "Water" and "water" are case-insensitively equal, so the
uniqueness invariant is not preserved by every mutating operation. -/
theorem C2_counterexample_patch_breaks_uniqueness :
    opsSucceed initDB dupTrace = true ∧
    ¬ titlesUnique (runOps initDB dupTrace) :=
  ⟨by decide, by decide⟩

/-- Claim C2 (amended): after every sequence of successful POST /drinks
operations the titles are case-insensitively unique; only PATCH, which
never runs the duplicate-title check, can break the invariant. -/
theorem C2_amended_posts_preserve_uniqueness (ops : List Op)
    (hpost : ∀ op ∈ ops, isPostOp op = true) :
    titlesUnique (runOps initDB ops) :=
  runOps_posts_titlesUnique ops initDB hpost (by decide)

/-- Witness for the amended claim C2, at the two-POST sequence
"Water" then "Tea". -/
theorem C2_amended_witness :
    (∀ op ∈ [Op.post waterPayload, Op.post teaPayload],
      isPostOp op = true) ∧
    titlesUnique (runOps initDB [Op.post waterPayload, Op.post teaPayload]) :=
  ⟨by decide, C2_amended_posts_preserve_uniqueness
    [Op.post waterPayload, Op.post teaPayload] (by decide)⟩

/-- Claim C3 (code bug): a successful PATCH does rebuild its body from a
re-fetch of all drinks, but through get_drinks, so the drinks appear in the
short representation — the name field is absent — and the envelope key is
the misspelled "sucess" rather than "success", contradicting the handler
docstring which promises the long representation under a "success" key. -/
theorem C3_patch_refetch_short_and_misspelled :
    (patch_drink db1 1 patchPayload).1 =
      (200, J.obj [("sucess", J.bool true),
        ("drinks", J.arr [J.obj [("id", J.num 1), ("title", J.str "Water2"),
          ("recipe", J.arr [J.obj [("color", J.str "white"),
                                   ("parts", J.num 2)]])]])]) ∧
    (patch_drink db1 1 patchPayload).1 =
      get_drinks (patch_drink db1 1 patchPayload).2 ∧
    objHasKey (patch_drink db1 1 patchPayload).1.2 "success" = false :=
  ⟨rfl, rfl, by decide⟩

/-- Claim C4 (code bug): the success bodies of GET /drinks, GET
/drinks-detail and PATCH carry the misspelled key "sucess" and no
"success" key at all, contradicting the handler docstrings; only POST and
DELETE produce the documented success-true envelope. -/
theorem C4_get_drinks_lacks_success_key :
    (get_drinks db1).1 = 200 ∧
    objHasKey (get_drinks db1).2 "success" = false ∧
    objHasKey (get_drinks db1).2 "sucess" = true ∧
    objHasKey (get_drinks_detail db1).2 "success" = false ∧
    objHasKey (post_drink initDB waterPayload).1.2 "success" = true ∧
    objHasKey (delete_drink db1 1).1.2 "success" = true := by
  decide

/-- Claim C5 (confirmed): a payload that is missing title, missing recipe,
has a non-list recipe, or has a recipe entry lacking name, color or parts
makes POST answer 422 with the store unchanged, and likewise PATCH when the
target id exists, so validation happens before any mutation. -/
theorem C5_invalid_payload_422_no_mutation (db : DB) (i : Nat)
    (data : DrinkPayload) (d : Drink) (hinv : invalidPayload data)
    (hu : idsUnique db) (hd : d ∈ db.drinks) (hi : d.id = i) :
    post_drink db data = (errorResponse 422, db) ∧
    patch_drink db i data = (errorResponse 422, db) := by
  have hc := check_drink_attribute_of_invalid hinv
  constructor
  · unfold post_drink
    rw [hc]
  · unfold patch_drink
    rw [idMatches_eq_singleton hu hd hi, hc]
    rfl

/-- Witness for claim C5: a one-row store and a payload with no recipe
key. -/
theorem C5_witness :
    invalidPayload noRecipePayload ∧
    post_drink db1 noRecipePayload = (errorResponse 422, db1) ∧
    patch_drink db1 1 noRecipePayload = (errorResponse 422, db1) := by
  have h := C5_invalid_payload_422_no_mutation db1 1 noRecipePayload drink1
    (Or.inr (Or.inl rfl)) (by decide) (by decide) rfl
  exact ⟨Or.inr (Or.inl rfl), h.1, h.2⟩

/-- Claim C6 (counterexample): in the reachable store produced by the
successful trace POST "Water", POST "Tea", PATCH drink 2 to "water", a POST
whose title "WATER" matches existing rows case-insensitively answers 500 —
one_or_none raises MultipleResultsFound outside the try block — not the
claimed client error 422. -/
theorem C6_counterexample_duplicate_rows_500 :
    opsSucceed initDB dupTrace = true ∧
    (runOps initDB dupTrace).drinks.any
      (fun d => sqlLower d.title == sqlLower "WATER") = true ∧
    capsWaterPayload.title = some "WATER" ∧
    (post_drink (runOps initDB dupTrace) capsWaterPayload).1.1 = 500 ∧
    (post_drink (runOps initDB dupTrace) capsWaterPayload).1.1 ≠ 422 :=
  ⟨by decide, by decide, rfl, by decide, by decide⟩

/-- Claim C6 (amended): a POST whose payload title matches, case
insensitively, the title of exactly one existing row answers 422 — whether
through attribute validation or the duplicate-title check — and leaves the
store unchanged; with two or more matching rows the request instead dies
as a 500 server error. -/
theorem C6_amended_unique_match_422 (db : DB) (t : String)
    (data : DrinkPayload) (ht : data.title = some t)
    (hone : (titleMatches db t).length = 1) :
    post_drink db data = (errorResponse 422, db) := by
  rcases List.length_eq_one.mp hone with ⟨d, hd⟩
  unfold post_drink
  rw [ht, Option.getD_some, hd]
  cases hc : check_drink_attribute data with
  | error c =>
      have h422 := check_drink_attribute_error_code hc
      subst h422
      rfl
  | ok u => rfl

/-- Witness for the amended claim C6: POST of the title "water" against a
store holding one drink titled "Water". -/
theorem C6_amended_witness :
    lowerWaterPayload.title = some "water" ∧
    (titleMatches db1 "water").length = 1 ∧
    post_drink db1 lowerWaterPayload = (errorResponse 422, db1) :=
  ⟨rfl, by decide,
   C6_amended_unique_match_422 db1 "water" lowerWaterPayload rfl (by decide)⟩

/-- Claim C7 (confirmed): PATCH on a primary key matching no row answers
404 with the store unchanged, whatever the payload, because the row lookup
runs before attribute validation. -/
theorem C7_patch_missing_id_404 (db : DB) (i : Nat) (data : DrinkPayload)
    (h : ∀ d ∈ db.drinks, d.id ≠ i) :
    patch_drink db i data = (errorResponse 404, db) := by
  unfold patch_drink
  rw [idMatches_eq_nil h]
  rfl

/-- Witness for claim C7: PATCH of id 1 against the empty startup store,
with a payload that is itself invalid — the 404 wins over the 422. -/
theorem C7_witness :
    patch_drink initDB 1 noRecipePayload = (errorResponse 404, initDB) :=
  C7_patch_missing_id_404 initDB 1 noRecipePayload (by decide)

/-- Claim C8 (confirmed): every registered error handler returns its own
status code in the error field of the uniform envelope with success false
and a string message, and the AuthError handler additionally carries the
provider error code under error_code. -/
theorem C8_error_envelope_shape :
    (∀ c ∈ registeredErrorCodes,
      (errorResponse c).1 = c ∧
      ∃ m : String, (errorResponse c).2 =
        J.obj [("success", J.bool false), ("error", J.num c),
               ("message", J.str m)]) ∧
    (∀ e : AuthError,
      (auth_error e).1 = e.status_code ∧
      (auth_error e).2 =
        J.obj [("success", J.bool false), ("error", J.num e.status_code),
               ("error_code", J.str e.code),
               ("message", J.str e.description)]) := by
  constructor
  · intro c _
    exact ⟨rfl, errMessage c, rfl⟩
  · intro e
    exact ⟨rfl, rfl⟩

/-- Witness for claim C8, at status 404 and a concrete AuthError. -/
theorem C8_witness :
    ((errorResponse 404).1 = 404 ∧
      ∃ m : String, (errorResponse 404).2 =
        J.obj [("success", J.bool false), ("error", J.num 404),
               ("message", J.str m)]) ∧
    ((auth_error ⟨401, "authorization_header_missing",
        "Authorization header is expected"⟩).1 = 401 ∧
      (auth_error ⟨401, "authorization_header_missing",
          "Authorization header is expected"⟩).2 =
        J.obj [("success", J.bool false), ("error", J.num 401),
               ("error_code", J.str "authorization_header_missing"),
               ("message", J.str "Authorization header is expected")]) :=
  ⟨C8_error_envelope_shape.1 404 (by decide),
   C8_error_envelope_shape.2
     ⟨401, "authorization_header_missing",
      "Authorization header is expected"⟩⟩

/-- Claim C9 (confirmed, modelled from the spec for the body of
db_drop_and_create_all): the startup call at api.py line 49 maps any
previous store to the empty one before any request is served, so no data
survives a restart. -/
theorem C9_startup_store_empty (prev : DB) :
    startupDB prev = initDB ∧ (startupDB prev).drinks = [] :=
  ⟨rfl, rfl⟩

/-- Claim C10 (confirmed): a payload whose recipe holds an entry with parts
equal to 0 — falsy in Python although a number — is rejected with 422 and
no store change, by POST and by PATCH on an existing id. -/
theorem C10_zero_parts_422 (db : DB) (i : Nat) (data : DrinkPayload)
    (d : Drink) (hz : hasZeroPartsEntry data) (hu : idsUnique db)
    (hd : d ∈ db.drinks) (hi : d.id = i) :
    post_drink db data = (errorResponse 422, db) ∧
    patch_drink db i data = (errorResponse 422, db) := by
  have hc := check_drink_attribute_of_zeroParts hz
  constructor
  · unfold post_drink
    rw [hc]
  · unfold patch_drink
    rw [idMatches_eq_singleton hu hd hi, hc]
    rfl

/-- Witness for claim C10: the zero-parts payload against a one-row
store. -/
theorem C10_witness :
    hasZeroPartsEntry zeroPartsPayload ∧
    post_drink db1 zeroPartsPayload = (errorResponse 422, db1) ∧
    patch_drink db1 1 zeroPartsPayload = (errorResponse 422, db1) := by
  have hz : hasZeroPartsEntry zeroPartsPayload := by
    refine ⟨[{ name := some "cocoa", color := some "brown",
               parts := some 0 }], rfl, ?_⟩
    exact ⟨{ name := some "cocoa", color := some "brown",
             parts := some 0 }, by simp, rfl⟩
  have h := C10_zero_parts_422 db1 1 zeroPartsPayload drink1 hz
    (by decide) (by decide) rfl
  exact ⟨hz, h.1, h.2⟩

end CoffeeShop
